import Mathlib

/-!
Shallow embedding of `src/index.ts` of the python-bun-plugin repository.

The plugin registers two hooks on the reserved `python` namespace:
* an `onResolve` callback `({ path }) => ({ path, namespace: "python" })`;
* an `onLoad` callback that computes `path.replace(/^python:/, "")` and
  splices the result into a fixed template literal, returning
  `{ contents, loader: "js" }`.

Both callbacks are pure: they close over no mutable state, read no clocks or
counters, and have no failure branch (anchored regex replacement and string
template construction are total).  They are therefore embedded as total Lean
functions on `String`, with `String` viewed through its character list
(`String.data`).
-/

set_option maxRecDepth 10000

namespace PythonBunPlugin

/-- Result record of the `onResolve` callback: `{ path, namespace }`.
The `namespace` field is called `nspace` because `namespace` is a Lean
keyword. -/
structure ResolveResult where
  path : String
  nspace : String
  deriving Repr, DecidableEq

/-- Result record of the `onLoad` callback: `{ contents, loader }`. -/
structure LoadResult where
  contents : String
  loader : String
  deriving Repr, DecidableEq

/-- Embeds `path.replace(/^python:/, "")`.  The regex is anchored at the
start, has no flags (in particular it is case-sensitive and not global), and
its only match is the literal character sequence `python:` at position 0; the
match is replaced by the empty string.  Hence: if the characters `python:`
are a prefix of `s`, drop exactly those 7 characters once; otherwise return
`s` unchanged. -/
def stripPythonTag (s : String) : String :=
  if "python:".data <+: s.data then ⟨s.data.drop 7⟩ else s

/-- Embeds the `onResolve` callback registered with
`{ filter: /.*/, namespace: 'python' }`: it returns the path unchanged,
tagged with the `python` namespace, for every path matched by the
catch-all filter. -/
def onResolve (path : String) : ResolveResult :=
  { path := path, nspace := "python" }

/-- Embeds the `onLoad` callback registered with
`{ filter: /.*/, namespace: "python" }`: the template literal of the source
with `path.replace(/^python:/, "")` interpolated, tagged `loader: "js"`.
The whitespace reproduces the source template literal exactly (a leading
newline, 10-space indented lines, a blank line after the import, and 8
trailing spaces before the closing backtick). -/
def onLoad (path : String) : LoadResult :=
  { contents :=
      "\n          import { pymport, proxify } from 'pymport';\n\n          const module = pymport('"
        ++ stripPythonTag path
        ++ "');\n          export default proxify(module);\n        "
    loader := "js" }

/-- The fixed text of the generated module before the interpolated module
name (up to and including the opening quote of the `pymport` argument). -/
def pyTemplateHead : String :=
  "\n          import { pymport, proxify } from 'pymport';\n\n          const module = pymport('"

/-- The fixed text of the generated module after the interpolated module
name (from the closing quote of the `pymport` argument on). -/
def pyTemplateTail : String :=
  "');\n          export default proxify(module);\n        "

/-- The fixed text of the generated module before the whole bind call. -/
def pyBindPrelude : String :=
  "\n          import { pymport, proxify } from 'pymport';\n\n          const module = "

/-- The fixed text of the generated module after the whole bind call. -/
def pyBindEpilogue : String :=
  ";\n          export default proxify(module);\n        "

/-- The bind call the generated module performs for module name `m`:
the literal text `pymport('m')`. -/
def bindCall (m : String) : String :=
  "pymport('" ++ m ++ "')"

/-- The import statement of the generated module. -/
def importStmt : String :=
  "import { pymport, proxify } from 'pymport';"

/-- The single-quote character, `'` (code point 39). -/
def singleQuote : Char := Char.ofNat 39

/-- Number of start positions of `l` at which the pattern `pat` occurs as a
contiguous block (occurrence count, for a nonempty pattern). -/
def countOcc (pat : List Char) : List Char → Nat
  | [] => 0
  | c :: rest => (if pat <+: c :: rest then 1 else 0) + countOcc pat rest

/-! ## Helper lemmas -/

theorem stripPythonTag_append (m : String) :
    stripPythonTag ("python:" ++ m) = m := by
  unfold stripPythonTag
  rw [if_pos (by rw [String.data_append]; exact ⟨m.data, rfl⟩)]
  rw [String.data_append]
  rw [show (7 : Nat) = "python:".data.length from by decide, List.drop_left]

theorem stripPythonTag_of_untagged {p : String}
    (h : ¬ "python:".data <+: p.data) : stripPythonTag p = p := by
  unfold stripPythonTag
  rw [if_neg h]

theorem onLoad_contents (p : String) :
    (onLoad p).contents = pyTemplateHead ++ stripPythonTag p ++ pyTemplateTail :=
  rfl

theorem contents_eq (m : String) :
    (onLoad ("python:" ++ m)).contents = pyTemplateHead ++ m ++ pyTemplateTail := by
  rw [onLoad_contents, stripPythonTag_append]

theorem contents_data_eq (m : String) :
    (onLoad ("python:" ++ m)).contents.data
      = pyTemplateHead.data ++ (m.data ++ pyTemplateTail.data) := by
  rw [contents_eq]
  simp [String.data_append]

theorem occurs_extend_right {a b c : List Char} (h : a <:+: b) : a <:+: b ++ c := by
  obtain ⟨s, t, rfl⟩ := h
  exact ⟨s, t ++ c, by simp⟩

theorem bindCall_occurs (m : String) :
    (bindCall m).data <:+: (onLoad ("python:" ++ m)).contents.data := by
  refine ⟨pyBindPrelude.data, pyBindEpilogue.data, ?_⟩
  rw [contents_data_eq]
  rw [show pyTemplateHead.data = pyBindPrelude.data ++ "pymport('".data from by decide]
  rw [show pyTemplateTail.data = "')".data ++ pyBindEpilogue.data from by decide]
  simp [bindCall, String.data_append]

theorem importStmt_occurs (m : String) :
    importStmt.data <:+: (onLoad ("python:" ++ m)).contents.data := by
  rw [contents_data_eq, ← List.append_assoc]
  exact occurs_extend_right (occurs_extend_right (by decide))

/-! ## Claims -/

/-- **C1.** For every target module name `m` not containing the namespace
separator, `Load("python:" ++ m)` produces generated source text matching the
generated module contract: it contains the import of `pymport` and `proxify`
from the `'pymport'` package, contains the literal substring `pymport('m')`
with `m` verbatim and unescaped, and — outside the interpolated module name —
the fixed template contains the word `export` exactly once, as the single
`export default` of the wrapped bind result, so no other exports are
present. -/
theorem generated_module_contract (m : String) (hm : ':' ∉ m.data) :
    importStmt.data <:+: (onLoad ("python:" ++ m)).contents.data
  ∧ (bindCall m).data <:+: (onLoad ("python:" ++ m)).contents.data
  ∧ (onLoad ("python:" ++ m)).contents = pyTemplateHead ++ m ++ pyTemplateTail
  ∧ countOcc "export".data (pyTemplateHead.data ++ pyTemplateTail.data) = 1
  ∧ countOcc "export default".data (pyTemplateHead.data ++ pyTemplateTail.data) = 1 :=
  ⟨importStmt_occurs m, bindCall_occurs m, contents_eq m, by decide, by decide⟩

/-- Witness for C1 at the concrete module name `numpy`. -/
theorem generated_module_contract_witness :
    (':' ∉ "numpy".data)
  ∧ (bindCall "numpy").data <:+: (onLoad ("python:" ++ "numpy")).contents.data :=
  ⟨by decide, (generated_module_contract "numpy" (by decide)).2.1⟩

/-- **C2.** For every specifier string `s` observed while the resolver is
scoped to the `python` namespace, `Resolve(s)` returns a record whose path
equals `s` exactly and whose namespace equals `"python"`.  The embedded
callback is a total function with no error value in its codomain: it never
fails and performs no validation of the module name's existence. -/
theorem resolve_identity_with_tag (s : String) :
    (onResolve s).path = s ∧ (onResolve s).nspace = "python" :=
  ⟨rfl, rfl⟩

/-- **C3.** The module name interpolated into the bind call is obtained from
the resolved path by stripping `python:` from the front exactly once, and
only when present at the start: the generated contents always wrap
`stripPythonTag p`; a path of the form `"python:" ++ m` (in particular
`"python:python:x"`, with `m = "python:x"`) loses only the first tag; and a
path not starting with `python:` passes through unchanged. -/
theorem strip_tag_once (p m : String) :
    ((onLoad p).contents = pyTemplateHead ++ stripPythonTag p ++ pyTemplateTail)
  ∧ (p = "python:" ++ m → stripPythonTag p = m)
  ∧ (¬ "python:".data <+: p.data → stripPythonTag p = p) :=
  ⟨onLoad_contents p,
   fun h => h ▸ stripPythonTag_append m,
   fun h => stripPythonTag_of_untagged h⟩

/-- Witness for C3: a doubly tagged path loses only the first tag, and an
untagged path passes through unchanged. -/
theorem strip_tag_once_witness :
    stripPythonTag "python:python:x" = "python:x" ∧ stripPythonTag "numpy" = "numpy" :=
  ⟨(strip_tag_once "python:python:x" "python:x").2.1 (by decide),
   (strip_tag_once "numpy" "").2.2 (by decide)⟩

/-- **C4.** `Load` is deterministic: the callback closes over no mutable
state, counters, timestamps, or randomness — its output is a function of the
input path alone, which the embedding as a pure function makes exact — so two
calls on the same path return byte-identical records. -/
theorem load_deterministic (p q : String) (h : p = q) : onLoad p = onLoad q :=
  congrArg onLoad h

/-- Witness for C4 at the concrete path `python:numpy`. -/
theorem load_deterministic_witness :
    onLoad "python:numpy" = onLoad "python:numpy" :=
  load_deterministic "python:numpy" "python:numpy" rfl

/-- **C5.** Round trip through prefixing and stripping: for the specifier
`python:foo.bar` the module name extracted and passed to the bind call is
exactly `foo.bar` — the dotted name passes through unmodified, and the
generated text contains the literal bind call on it. -/
theorem roundtrip_dotted_name :
    stripPythonTag "python:foo.bar" = "foo.bar"
  ∧ (bindCall "foo.bar").data <:+: (onLoad "python:foo.bar").contents.data := by
  constructor
  · decide
  · exact bindCall_occurs "foo.bar"

/-- **C6.** Boundary behaviour with an empty remainder: on the specifier
`"python:"` the load hook does not reject the input — it returns an ordinary
record whose contents hold the bind call on the empty module name,
`pymport('')`. -/
theorem empty_remainder_boundary :
    stripPythonTag "python:" = ""
  ∧ (bindCall "").data <:+: (onLoad "python:").contents.data
  ∧ (onLoad "python:").loader = "js" := by
  refine ⟨by decide, ?_, rfl⟩
  exact bindCall_occurs ""

/-- **C7.** The load step applies no escaping to the module name: for every
path of the form `"python:" ++ m`, the generated contents are exactly the
fixed template around `m` itself, the literal bind call `pymport('m')`
appears, and the number of single-quote characters in the contents is
`4 + (quotes in m)` — so a quote inside `m` lands raw in the generated text,
breaking the string-literal syntax of the generated module. -/
theorem no_escaping_of_module_name (m : String) :
    (onLoad ("python:" ++ m)).contents = pyTemplateHead ++ m ++ pyTemplateTail
  ∧ (bindCall m).data <:+: (onLoad ("python:" ++ m)).contents.data
  ∧ (onLoad ("python:" ++ m)).contents.data.count singleQuote
      = 4 + m.data.count singleQuote := by
  refine ⟨contents_eq m, bindCall_occurs m, ?_⟩
  rw [contents_data_eq, List.count_append, List.count_append]
  rw [show pyTemplateHead.data.count singleQuote = 3 from by decide]
  rw [show pyTemplateTail.data.count singleQuote = 1 from by decide]
  omega

/-- **C8.** For every input path, the record returned by `Load` tags the
generated source as directly executable script — `loader: "js"` — not as a
data asset such as `"json"` or `"file"`, so the host compiles and executes
it as an ordinary module. -/
theorem loader_is_js (p : String) : (onLoad p).loader = "js" :=
  rfl

/-- **C9.** Totality of both hooks: for every string path — including the
empty string and strings not beginning with `python:` — both callbacks
return a fully determined result record; the embedding needs no `Option` or
`Except`, because each callback performs only an anchored regex replacement
and string-template construction, neither of which has a reachable error
branch. -/
theorem hooks_total (p : String) :
    onResolve p = ⟨p, "python"⟩
  ∧ onLoad p = ⟨pyTemplateHead ++ stripPythonTag p ++ pyTemplateTail, "js"⟩ :=
  ⟨rfl, rfl⟩

/-- **C10.** Tag matching is case-sensitive: the regex `/^python:/` carries
no `i` flag, so on the path `Python:numpy` nothing is stripped and the whole
path appears as the argument of the bind call in the generated text. -/
theorem tag_match_case_sensitive :
    stripPythonTag "Python:numpy" = "Python:numpy"
  ∧ (bindCall "Python:numpy").data <:+: (onLoad "Python:numpy").contents.data := by
  constructor
  · decide
  · have h : (onLoad "Python:numpy").contents
        = (onLoad ("python:" ++ "Python:numpy")).contents := by decide
    rw [h]
    exact bindCall_occurs "Python:numpy"

end PythonBunPlugin
